import Mathlib

-- Batteries seals the rational-number operations against unfolding; the
-- concrete replay evaluations below are settled by kernel reduction, which
-- needs them unfoldable.
attribute [local semireducible] Rat.add Rat.mul Rat.inv Rat.sub

/-!
Shallow embedding of the backtest simulator of `src/backup/backtest.py`
(classes `TradeRecord`, `BacktestResult`, `Backtest`).

Modelling conventions:
* Python floats are modelled as exact rationals (`ℚ`); `float('inf')` and
  float NaN are modelled by dedicated constructors of `MetricVal`.
* `pd.Timestamp` values are modelled as integers measured in days, so the
  source's `(end - start).days` and `total_seconds()/(60*60*24)` both become
  plain integer subtraction.
* A `pd.DataFrame` of price bars is modelled as a list of
  `(timestamp, close)` rows together with the two facts about it the code
  consults: whether its index is a `DatetimeIndex` and the constant value of
  its optional `symbol` column.
* `pd.Timestamp.now()` (wall clock) is modelled as an explicit `now`
  parameter threaded to the places that call it.
* Rational division by zero yields `0` in Lean where Python would raise
  `ZeroDivisionError` or produce `inf`; every claim below is evaluated on
  inputs where no such division occurs.
-/

/-- `SignalType` enum of `strategy_base.py`. -/
inductive SignalType where
  | BUY
  | SELL
  | HOLD
  deriving DecidableEq

/-- `Signal` of `strategy_base.py`, restricted to the fields the backtester
reads (`symbol`, `signal_type`, `timestamp`, `price`, `metadata`). -/
structure Signal where
  symbol : String
  signal_type : SignalType
  timestamp : Int
  price : ℚ
  metadata : List (String × String) := []
  deriving DecidableEq

/-- `TradeRecord` dataclass of `backtest.py`. -/
structure TradeRecord where
  entry_time : Int
  exit_time : Option Int
  symbol : String
  direction : String
  entry_price : ℚ
  exit_price : Option ℚ
  quantity : ℚ
  profit_loss : Option ℚ
  profit_loss_pct : Option ℚ
  status : String
  entry_signal : Signal
  exit_signal : Option Signal
  deriving DecidableEq

/-- The price `DataFrame` handed to `Backtest.__init__`: `rows` holds the
`(index timestamp, close)` pairs in frame order. -/
structure DataFrame where
  isDatetimeIndex : Bool
  rows : List (Int × ℚ)
  symbolCol : Option String
  deriving DecidableEq

/-- `DataFrame.copy()`: a fresh frame with equal contents. -/
def DataFrame.copy (d : DataFrame) : DataFrame := d

/-- `DataFrame.sort_index()`: the rows re-sorted ascending by index
timestamp (insertion sort; agrees with pandas on distinct timestamps). -/
def DataFrame.sortIndex (d : DataFrame) : DataFrame :=
  { d with rows := d.rows.insertionSort (fun a b => a.1 ≤ b.1) }

/-- The constructor parameters of `Backtest.__init__`. -/
structure Config where
  initial_capital : ℚ
  fee_rate : ℚ
  slippage : ℚ
  position_size : ℚ
  deriving DecidableEq

/-- The mutable per-run fields of a `Backtest` object. -/
structure BTState where
  capital : ℚ
  equity : ℚ
  position : ℚ
  position_value : ℚ
  trades : List TradeRecord
  equity_curve : List (Int × ℚ)
  open_trade : Option TradeRecord
  deriving DecidableEq

namespace Backtest

/-- The state section of `Backtest.__init__`. -/
def initState (cfg : Config) : BTState :=
  { capital := cfg.initial_capital
    equity := cfg.initial_capital
    position := 0
    position_value := 0
    trades := []
    equity_curve := []
    open_trade := none }

/-- `self.data = data.copy()` followed by
`if isinstance(data.index, pd.DatetimeIndex): self.data = self.data.sort_index()`. -/
def initData (data : DataFrame) : DataFrame :=
  let d := data.copy
  if data.isDatetimeIndex then d.sortIndex else d

/-- First block of `Backtest._execute_buy`: cover an existing short
position (`if self.position < 0`). -/
def close_short (cfg : Config) (signal : Signal) (price : ℚ) (s : BTState) : BTState :=
  if s.position < 0 then
    let cover_quantity := |s.position|
    let price_with_slippage := price * (1 + cfg.slippage)
    let cost := cover_quantity * price_with_slippage
    let fee := cost * cfg.fee_rate
    let s1 : BTState :=
      { s with capital := s.capital - (cost + fee), position := 0, position_value := 0 }
    match s1.open_trade with
    | some ot =>
      let ot1 : TradeRecord :=
        { ot with
          exit_time := some signal.timestamp
          exit_price := some price_with_slippage
          profit_loss := some ((ot.entry_price - price_with_slippage) * cover_quantity - fee)
          profit_loss_pct := some ((ot.entry_price - price_with_slippage) / ot.entry_price * 100)
          status := "closed"
          exit_signal := some signal }
      { s1 with trades := s1.trades ++ [ot1], open_trade := none }
    | none => s1
  else s

/-- Second block of `Backtest._execute_buy`: open a long position
(`if self.position == 0`), guarded by `cost + fee <= self.capital`. -/
def open_long (cfg : Config) (signal : Signal) (price : ℚ) (s : BTState) : BTState :=
  if s.position = 0 then
    let buy_amount := s.capital * cfg.position_size
    let price_with_slippage := price * (1 + cfg.slippage)
    let quantity := buy_amount / price_with_slippage
    let cost := quantity * price_with_slippage
    let fee := cost * cfg.fee_rate
    if cost + fee ≤ s.capital then
      { s with
        capital := s.capital - (cost + fee)
        position := quantity
        position_value := quantity * price
        open_trade := some
          { entry_time := signal.timestamp
            exit_time := none
            symbol := signal.symbol
            direction := "long"
            entry_price := price_with_slippage
            exit_price := none
            quantity := quantity
            profit_loss := none
            profit_loss_pct := none
            status := "open"
            entry_signal := signal
            exit_signal := none } }
    else s
  else s

/-- `Backtest._execute_buy`. -/
def execute_buy (cfg : Config) (s : BTState) (signal : Signal) (price : ℚ) : BTState :=
  open_long cfg signal price (close_short cfg signal price s)

/-- First block of `Backtest._execute_sell`: close an existing long
position (`if self.position > 0`). -/
def close_long (cfg : Config) (signal : Signal) (price : ℚ) (s : BTState) : BTState :=
  if s.position > 0 then
    let sell_quantity := s.position
    let price_with_slippage := price * (1 - cfg.slippage)
    let proceeds := sell_quantity * price_with_slippage
    let fee := proceeds * cfg.fee_rate
    let s1 : BTState :=
      { s with capital := s.capital + (proceeds - fee), position := 0, position_value := 0 }
    match s1.open_trade with
    | some ot =>
      let ot1 : TradeRecord :=
        { ot with
          exit_time := some signal.timestamp
          exit_price := some price_with_slippage
          profit_loss := some ((price_with_slippage - ot.entry_price) * sell_quantity - fee)
          profit_loss_pct := some ((price_with_slippage - ot.entry_price) / ot.entry_price * 100)
          status := "closed"
          exit_signal := some signal }
      { s1 with trades := s1.trades ++ [ot1], open_trade := none }
    | none => s1
  else s

/-- Second block of `Backtest._execute_sell`: open a short position
(`if self.position == 0`). Note: unlike `open_long`, the source has no
capital guard here. -/
def open_short (cfg : Config) (signal : Signal) (price : ℚ) (s : BTState) : BTState :=
  if s.position = 0 then
    let sell_amount := s.capital * cfg.position_size
    let price_with_slippage := price * (1 - cfg.slippage)
    let quantity := sell_amount / price_with_slippage
    let proceeds := quantity * price_with_slippage
    let fee := proceeds * cfg.fee_rate
    { s with
      capital := s.capital + (proceeds - fee)
      position := -quantity
      position_value := quantity * price
      open_trade := some
        { entry_time := signal.timestamp
          exit_time := none
          symbol := signal.symbol
          direction := "short"
          entry_price := price_with_slippage
          exit_price := none
          quantity := quantity
          profit_loss := none
          profit_loss_pct := none
          status := "open"
          entry_signal := signal
          exit_signal := none } }
  else s

/-- `Backtest._execute_sell`. -/
def execute_sell (cfg : Config) (s : BTState) (signal : Signal) (price : ℚ) : BTState :=
  open_short cfg signal price (close_long cfg signal price s)

/-- Dispatch on `signal.signal_type` inside the bar loop of `Backtest.run`
(`HOLD` signals match neither branch and do nothing). -/
def apply_signal (cfg : Config) (price : ℚ) (s : BTState) (sig : Signal) : BTState :=
  match sig.signal_type with
  | SignalType.BUY => execute_buy cfg s sig price
  | SignalType.SELL => execute_sell cfg s sig price
  | SignalType.HOLD => s

/-- One iteration of the `for index, row in self.data.iterrows()` loop of
`Backtest.run`: record the equity sample, mark the position to the bar's
close, then apply every signal whose timestamp equals the bar's index. -/
def process_bar (cfg : Config) (signals : List Signal) (s : BTState) (bar : Int × ℚ) : BTState :=
  let equity := s.capital + s.position_value
  let s1 : BTState :=
    { s with equity := equity, equity_curve := s.equity_curve ++ [(bar.1, equity)] }
  let current_price := bar.2
  let s2 : BTState := { s1 with position_value := s1.position * current_price }
  let current_signals := signals.filter (fun sg => sg.timestamp == bar.1)
  current_signals.foldl (apply_signal cfg current_price) s2

/-- `sorted(signals, key=lambda x: x.timestamp)`. -/
def sortSignals (signals : List Signal) : List Signal :=
  signals.insertionSort (fun a b => a.timestamp ≤ b.timestamp)

/-- Value of one entry of the metrics dict of
`BacktestResult.calculate_metrics`.  Fields whose source computation is a
transcendental float expression are represented symbolically by the
constructor carrying the exact rational sub-expressions:
`annualizedPct pct days` stands for `((1 + pct/100)^(365/days) - 1) * 100`
and `sharpe m v` stands for `sqrt(365) * m / sqrt(v)` (with `v` the
sample variance of the period returns, `ddof=1`); `nan` stands for a float
NaN (the pandas `std()` of a single return). -/
inductive MetricVal where
  | q (x : ℚ)
  | inf
  | nan
  | annualizedPct (pct : ℚ) (days : Int)
  | sharpe (m v : ℚ)
  deriving DecidableEq

/-- The metrics dict of `BacktestResult.calculate_metrics`, one field per
dict key. -/
structure Metrics where
  total_return : ℚ
  total_return_pct : ℚ
  annualized_return : MetricVal
  max_drawdown : ℚ
  max_drawdown_pct : ℚ
  sharpe_ratio : MetricVal
  win_rate : ℚ
  profit_factor : MetricVal
  total_trades : Nat
  winning_trades : Nat
  losing_trades : Nat
  avg_profit : ℚ
  avg_loss : ℚ
  avg_profit_pct : ℚ
  avg_loss_pct : ℚ
  avg_trade_duration : ℚ
  deriving DecidableEq

/-- The all-zero metrics dict of the `len(self.trades) == 0` early return. -/
def zeroMetrics : Metrics :=
  { total_return := 0
    total_return_pct := 0
    annualized_return := MetricVal.q 0
    max_drawdown := 0
    max_drawdown_pct := 0
    sharpe_ratio := MetricVal.q 0
    win_rate := 0
    profit_factor := MetricVal.q 0
    total_trades := 0
    winning_trades := 0
    losing_trades := 0
    avg_profit := 0
    avg_loss := 0
    avg_profit_pct := 0
    avg_loss_pct := 0
    avg_trade_duration := 0 }

/-- Python truthiness test `t.profit_loss and t.profit_loss > 0` of the
winning-trade filter (`None` and `0.0` are falsy). -/
def plWinning : Option ℚ → Bool
  | none => false
  | some p => decide (p ≠ 0) && decide (p > 0)

/-- Python truthiness test `t.profit_loss and t.profit_loss <= 0` of the
losing-trade filter. -/
def plLosing : Option ℚ → Bool
  | none => false
  | some p => decide (p ≠ 0) && decide (p ≤ 0)

/-- Helper of `np.maximum.accumulate`: running maximum continued from `m`. -/
def runningMaxAux (m : ℚ) : List ℚ → List ℚ
  | [] => []
  | x :: xs => max m x :: runningMaxAux (max m x) xs

/-- `np.maximum.accumulate` over the equity values. -/
def runningMax : List ℚ → List ℚ
  | [] => []
  | x :: xs => x :: runningMaxAux x xs

/-- `BacktestResult.calculate_max_drawdown` on the equity values:
`(drawdown.max(), drawdown_pct.max())`.  (`.max()` of an empty array would
raise in numpy; the only caller passes a non-empty curve, and the model
returns `(0, 0)` there.) -/
def calc_max_drawdown (values : List ℚ) : ℚ × ℚ :=
  let mx := runningMax values
  let drawdown := List.zipWith (fun m e => m - e) mx values
  let drawdown_pct := List.zipWith (fun m e => (m - e) / m * 100) mx values
  ((drawdown.max?).getD 0, (drawdown_pct.max?).getD 0)

/-- `equity_curve.pct_change().dropna()`. -/
def pctChange (xs : List ℚ) : List ℚ :=
  List.zipWith (fun prev cur => (cur - prev) / prev) xs xs.tail

/-- Mean of a list of rationals (`.mean()`). -/
def listMean (xs : List ℚ) : ℚ := xs.sum / (xs.length : ℚ)

/-- Sample variance with `ddof=1` (the square of pandas `.std()`). -/
def sampleVariance (xs : List ℚ) : ℚ :=
  (xs.map (fun x => (x - listMean xs) ^ 2)).sum / ((xs.length : ℚ) - 1)

/-- `BacktestResult.calculate_metrics`, as a function of the constructor
arguments it reads (`trades`, `equity_curve`, `initial_capital`,
`start_date`, `end_date`). -/
def calculate_metrics (trades : List TradeRecord) (equity_curve : List (Int × ℚ))
    (initial_capital : ℚ) (start_date end_date : Int) : Metrics :=
  if trades = [] then zeroMetrics
  else
    let closed_trades := trades.filter (fun t => t.status == "closed")
    let total_trades := closed_trades.length
    let winning_trades := closed_trades.filter (fun t => plWinning t.profit_loss)
    let losing_trades := closed_trades.filter (fun t => plLosing t.profit_loss)
    let values := equity_curve.map Prod.snd
    let final_equity := ((equity_curve.getLast?).map Prod.snd).getD 0
    let total_return := final_equity - initial_capital
    let total_return_pct := total_return / initial_capital * 100
    let dd := calc_max_drawdown values
    let days : Int := end_date - start_date
    let annualized_return :=
      if days > 0 then MetricVal.annualizedPct total_return_pct days else MetricVal.q 0
    let sharpe_ratio :=
      if equity_curve.length > 1 then
        let rets := pctChange values
        -- pandas `std()` with `ddof=1` of a single return is NaN; Python's
        -- `NaN != 0` is True, so the source then computes `mean/NaN = NaN`.
        if rets.length < 2 then MetricVal.nan
        else if sampleVariance rets ≠ 0 then MetricVal.sharpe (listMean rets) (sampleVariance rets)
        else MetricVal.q 0
      else MetricVal.q 0
    let win_rate : ℚ :=
      if total_trades > 0 then ((winning_trades.length : ℚ) / (total_trades : ℚ)) * 100 else 0
    let gross_profit : ℚ :=
      if winning_trades ≠ [] then (winning_trades.map (fun t => t.profit_loss.getD 0)).sum else 0
    let gross_loss : ℚ :=
      if losing_trades ≠ [] then |(losing_trades.map (fun t => t.profit_loss.getD 0)).sum| else 0
    let profit_factor :=
      if gross_loss ≠ 0 then MetricVal.q (gross_profit / gross_loss)
      else if gross_profit = 0 then MetricVal.q 0
      else MetricVal.inf
    let avg_profit := if winning_trades ≠ [] then gross_profit / (winning_trades.length : ℚ) else 0
    let avg_loss := if losing_trades ≠ [] then gross_loss / (losing_trades.length : ℚ) else 0
    let avg_profit_pct :=
      if winning_trades ≠ [] then
        (winning_trades.map (fun t => t.profit_loss_pct.getD 0)).sum / (winning_trades.length : ℚ)
      else 0
    let avg_loss_pct :=
      if losing_trades ≠ [] then
        (losing_trades.map (fun t => t.profit_loss_pct.getD 0)).sum / (losing_trades.length : ℚ)
      else 0
    let durations :=
      (closed_trades.filter (fun t => t.exit_time ≠ none)).map
        (fun t => ((t.exit_time.getD 0 - t.entry_time : Int) : ℚ))
    let avg_trade_duration :=
      if durations ≠ [] then durations.sum / (durations.length : ℚ) else 0
    { total_return := total_return
      total_return_pct := total_return_pct
      annualized_return := annualized_return
      max_drawdown := dd.1
      max_drawdown_pct := dd.2
      sharpe_ratio := sharpe_ratio
      win_rate := win_rate
      profit_factor := profit_factor
      total_trades := total_trades
      winning_trades := winning_trades.length
      losing_trades := losing_trades.length
      avg_profit := avg_profit
      avg_loss := avg_loss
      avg_profit_pct := avg_profit_pct
      avg_loss_pct := avg_loss_pct
      avg_trade_duration := avg_trade_duration }

/-- `BacktestResult`, restricted to the fields built by
`Backtest._create_result` that the claims consult (the metrics dict is
computed eagerly in `BacktestResult.__init__`). -/
structure BacktestResult where
  trades : List TradeRecord
  equity_curve : List (Int × ℚ)
  initial_capital : ℚ
  symbol : String
  start_date : Int
  end_date : Int
  metrics : Metrics
  deriving DecidableEq

/-- The end-of-replay block of `Backtest.run`
(`if self.position != 0 and len(self.data) > 0`): synthesize the
`close_position` signal and execute it. -/
def force_close (cfg : Config) (data : DataFrame) (s : BTState) : BTState :=
  if s.position ≠ 0 then
    match data.rows.getLast? with
    | some (last_time, last_price) =>
      let close_signal : Signal :=
        { symbol := data.symbolCol.getD "UNKNOWN"
          signal_type := if s.position > 0 then SignalType.SELL else SignalType.BUY
          timestamp := last_time
          price := last_price
          metadata := [("type", "close_position")] }
      if s.position > 0 then execute_sell cfg s close_signal last_price
      else execute_buy cfg s close_signal last_price
    | none => s
  else s

/-- `Backtest._create_result` (including the metrics computation performed
by `BacktestResult.__init__`).  `now` models `pd.Timestamp.now()`. -/
def create_result (cfg : Config) (data : DataFrame) (s : BTState) (now : Int) : BacktestResult :=
  let equity_series : List (Int × ℚ) :=
    if s.equity_curve ≠ [] then s.equity_curve
    else [(((data.rows.head?).map Prod.fst).getD now, cfg.initial_capital)]
  let start_date := ((data.rows.head?).map Prod.fst).getD now
  let end_date := ((data.rows.getLast?).map Prod.fst).getD now
  let symbol := data.symbolCol.getD "UNKNOWN"
  { trades := s.trades
    equity_curve := equity_series
    initial_capital := cfg.initial_capital
    symbol := symbol
    start_date := start_date
    end_date := end_date
    metrics := calculate_metrics s.trades equity_series cfg.initial_capital start_date end_date }

/-- Body of `Backtest.run` once the signal list is known: the early return
on an empty signal list, the replay loop, the forced close and the result
assembly.  Returns the final ledger state (the fields of `self` when
`run()` returns) together with the `BacktestResult`. -/
def runWith (cfg : Config) (data : DataFrame) (signals0 : List Signal) (now : Int) :
    BTState × BacktestResult :=
  if signals0 = [] then
    (initState cfg, create_result cfg data (initState cfg) now)
  else
    let signals := sortSignals signals0
    let s := data.rows.foldl (process_bar cfg signals) (initState cfg)
    let s1 := force_close cfg data s
    (s1, create_result cfg data s1 now)

/-- `Backtest(...)` construction followed by `Backtest.run()`: the data is
copied and (for a datetime index) sorted, the strategy generates the signal
list from the stored data, and the replay runs. -/
def run (cfg : Config) (strategy : DataFrame → List Signal) (data : DataFrame) (now : Int) :
    BTState × BacktestResult :=
  let d := initData data
  runWith cfg d (strategy d) now

end Backtest

open Backtest

/-! ## The spec-side ledger invariant and profit-factor formula -/

/-- The ledger invariant provable of the code: an absent open trade means a
flat position, and every trade pushed into the history is closed (hence at
most one trade — the `open_trade` field — is ever simultaneously open).
The spec claims the stronger two-sided `position == 0 ⇔ open_trade is
None`; the forward direction fails on zero-quantity entries (see
`c5_counterexample`). -/
def LedgerInv (s : BTState) : Prop :=
  (s.open_trade = none → s.position = 0) ∧ ∀ t ∈ s.trades, t.status = "closed"

instance (s : BTState) : Decidable (LedgerInv s) := by
  unfold LedgerInv
  infer_instance

/-- Gross profit exactly as the specification words it: the sum of the
positive `profit_loss` values of the closed-trade list. -/
def grossProfitSpec (trades : List TradeRecord) : ℚ :=
  ((trades.filterMap (fun t => t.profit_loss)).filter (fun p => decide (0 < p))).sum

/-- Gross loss exactly as the specification words it: the absolute value of
the sum of the non-positive `profit_loss` values of the closed-trade list. -/
def grossLossSpec (trades : List TradeRecord) : ℚ :=
  |((trades.filterMap (fun t => t.profit_loss)).filter (fun p => decide (p ≤ 0))).sum|

/-- Profit factor exactly as the specification words it:
`gross_profit / gross_loss`, with `0` when both are zero and `+infinity`
when only the loss is zero. -/
def profitFactorSpec (trades : List TradeRecord) : MetricVal :=
  if grossLossSpec trades = 0 then
    if grossProfitSpec trades = 0 then MetricVal.q 0 else MetricVal.inf
  else MetricVal.q (grossProfitSpec trades / grossLossSpec trades)

/-! ## Heap model of DataFrame ownership (claim C10)

Python DataFrames are heap objects passed by reference.  To state that the
caller's frame survives a run unchanged, the frames live in an explicit
heap (a list of `DataFrame` values indexed by position) and the two
operations of the `Backtest` lifecycle are heap transformers. -/

instance : Inhabited DataFrame := ⟨{ isDatetimeIndex := false, rows := [], symbolCol := none }⟩

/-- `Backtest.__init__(strategy, data, ...)` as a heap transformer: the
caller's frame sits at index `r`; `data.copy()` allocates a fresh frame
(appended at the end of the heap) and `sort_index()` returns a further new
frame rebound to `self.data` — neither writes through `r`.  Returns the
heap and the index of `self.data`. -/
def constructOnHeap (heap : List DataFrame) (r : Nat) : List DataFrame × Nat :=
  (heap ++ [Backtest.initData (heap.getD r default)], heap.length)

/-- `Backtest.run()` as a heap transformer.  The body of `run` (and of
`_execute_buy`, `_execute_sell`, `_create_result`) contains no in-place
DataFrame operation: `iterrows`, `iloc`, column access and `index[...]` are
reads, and all writes target scalar attributes or Python lists owned by the
`Backtest` object.  Its action on the heap is therefore the identity. -/
def runOnHeap (heap : List DataFrame) (selfData : Nat) (cfg : Config)
    (strategy : DataFrame → List Signal) (now : Int) :
    List DataFrame × (BTState × BacktestResult) :=
  (heap,
   Backtest.runWith cfg (heap.getD selfData default)
     (strategy (heap.getD selfData default)) now)

/-! ## Order instances for the row-sorting relation -/

instance : IsTotal (Int × ℚ) (fun a b => a.1 ≤ b.1) :=
  ⟨fun a b => le_total a.1 b.1⟩

instance : IsTrans (Int × ℚ) (fun a b => a.1 ≤ b.1) :=
  ⟨fun _ _ _ hab hbc => le_trans hab hbc⟩

/-! ## Concrete inputs used by the per-claim evaluations -/

/-- C1 run: standard parameters, a single bar, one BUY signal on it. -/
def cfgC1 : Config :=
  { initial_capital := 10000, fee_rate := 1/1000, slippage := 0, position_size := 1/10 }

def dataC1 : DataFrame :=
  { isDatetimeIndex := true, rows := [(0, 100)], symbolCol := some "BTC/USDT" }

def sigC1 : Signal :=
  { symbol := "BTC/USDT", signal_type := SignalType.BUY, timestamp := 0, price := 100 }

/-- C2 state: standard parameters except `position_size = 2`, so a long
entry of the same size would fail the capital guard. -/
def cfgC2 : Config :=
  { initial_capital := 10000, fee_rate := 1/1000, slippage := 0, position_size := 2 }

def sigC2 : Signal :=
  { symbol := "BTC/USDT", signal_type := SignalType.SELL, timestamp := 0, price := 100 }

/-- C3 run: the spec's concrete scenario. -/
def cfgC3 : Config :=
  { initial_capital := 10000, fee_rate := 1/1000, slippage := 0, position_size := 1/10 }

def dataC3 : DataFrame :=
  { isDatetimeIndex := true, rows := [(0, 100), (1, 110)], symbolCol := some "BTC/USDT" }

def sigC3buy : Signal :=
  { symbol := "BTC/USDT", signal_type := SignalType.BUY, timestamp := 0, price := 100 }

def sigC3sell : Signal :=
  { symbol := "BTC/USDT", signal_type := SignalType.SELL, timestamp := 1, price := 110 }

def runC3 : BTState × BacktestResult :=
  Backtest.run cfgC3 (fun _ => [sigC3buy, sigC3sell]) dataC3 0

/-- C4 state: a SELL processed while flat opens a short. -/
def cfgC4 : Config :=
  { initial_capital := 10000, fee_rate := 1/1000, slippage := 0, position_size := 1/10 }

def sigC4 : Signal :=
  { symbol := "BTC/USDT", signal_type := SignalType.SELL, timestamp := 0, price := 100 }

/-- C5 run: all-in short whose cover consumes exactly all capital, making
the subsequent automatic long entry a zero-quantity open trade. -/
def cfgC5 : Config :=
  { initial_capital := 1000, fee_rate := 0, slippage := 0, position_size := 1 }

def dataC5 : DataFrame :=
  { isDatetimeIndex := true, rows := [(0, 100), (1, 200)], symbolCol := some "BTC/USDT" }

def sigC5sell : Signal :=
  { symbol := "BTC/USDT", signal_type := SignalType.SELL, timestamp := 0, price := 100 }

def sigC5buy : Signal :=
  { symbol := "BTC/USDT", signal_type := SignalType.BUY, timestamp := 1, price := 200 }

def runC5 : BTState × BacktestResult :=
  Backtest.run cfgC5 (fun _ => [sigC5sell, sigC5buy]) dataC5 0

/-- C6 run: two bars, a strategy that emits no signals. -/
def cfgC6 : Config :=
  { initial_capital := 10000, fee_rate := 1/1000, slippage := 1/2000, position_size := 1/10 }

def dataC6 : DataFrame :=
  { isDatetimeIndex := true, rows := [(5, 100), (7, 110)], symbolCol := none }

/-- C7 run: empty price series (the strategy still emits one signal). -/
def cfgC7 : Config :=
  { initial_capital := 10000, fee_rate := 1/1000, slippage := 1/2000, position_size := 1/10 }

def dataC7 : DataFrame :=
  { isDatetimeIndex := true, rows := [], symbolCol := none }

def sigC7 : Signal :=
  { symbol := "BTC/USDT", signal_type := SignalType.BUY, timestamp := 3, price := 100 }

/-- C8 run: a DatetimeIndex series supplied out of order; the one HOLD
signal matches no bar, so the replay only records equity samples. -/
def cfgC8 : Config :=
  { initial_capital := 10000, fee_rate := 1/1000, slippage := 0, position_size := 1/10 }

def dataC8 : DataFrame :=
  { isDatetimeIndex := true, rows := [(1, 100), (0, 200)], symbolCol := none }

def sigC8 : Signal :=
  { symbol := "BTC/USDT", signal_type := SignalType.HOLD, timestamp := 99, price := 100 }

/-- C9 witness trade: a single closed winning trade. -/
def tradeC9 : TradeRecord :=
  { entry_time := 0, exit_time := some 1, symbol := "BTC/USDT", direction := "long"
    entry_price := 100, exit_price := some 110, quantity := 10
    profit_loss := some (989/10), profit_loss_pct := some 10, status := "closed"
    entry_signal := sigC1, exit_signal := some sigC1 }

/-- C10 witness heap: one caller-owned frame. -/
def heapC10 : List DataFrame :=
  [{ isDatetimeIndex := true, rows := [(1, 100), (0, 200)], symbolCol := some "BTC/USDT" }]

/-! ## Preservation of the ledger invariant -/

theorem ledgerInv_initState (cfg : Config) : LedgerInv (Backtest.initState cfg) := by
  constructor
  · intro _
    rfl
  · intro t ht
    simp [Backtest.initState] at ht

theorem ledgerInv_close_short (cfg : Config) (sig : Signal) (p : ℚ) (s : BTState)
    (h : LedgerInv s) : LedgerInv (Backtest.close_short cfg sig p s) := by
  obtain ⟨h1, h2⟩ := h
  unfold Backtest.close_short
  dsimp only
  split
  · split
    · refine ⟨fun _ => rfl, ?_⟩
      intro t ht
      rcases List.mem_append.mp ht with h3 | h3
      · exact h2 t h3
      · simp only [List.mem_singleton] at h3
        subst h3
        rfl
    · exact ⟨fun _ => rfl, h2⟩
  · exact ⟨h1, h2⟩

theorem ledgerInv_open_long (cfg : Config) (sig : Signal) (p : ℚ) (s : BTState)
    (h : LedgerInv s) : LedgerInv (Backtest.open_long cfg sig p s) := by
  obtain ⟨h1, h2⟩ := h
  unfold Backtest.open_long
  dsimp only
  split
  · split
    · exact ⟨fun hc => Option.noConfusion hc, h2⟩
    · exact ⟨h1, h2⟩
  · exact ⟨h1, h2⟩

theorem ledgerInv_close_long (cfg : Config) (sig : Signal) (p : ℚ) (s : BTState)
    (h : LedgerInv s) : LedgerInv (Backtest.close_long cfg sig p s) := by
  obtain ⟨h1, h2⟩ := h
  unfold Backtest.close_long
  dsimp only
  split
  · split
    · refine ⟨fun _ => rfl, ?_⟩
      intro t ht
      rcases List.mem_append.mp ht with h3 | h3
      · exact h2 t h3
      · simp only [List.mem_singleton] at h3
        subst h3
        rfl
    · exact ⟨fun _ => rfl, h2⟩
  · exact ⟨h1, h2⟩

theorem ledgerInv_open_short (cfg : Config) (sig : Signal) (p : ℚ) (s : BTState)
    (h : LedgerInv s) : LedgerInv (Backtest.open_short cfg sig p s) := by
  obtain ⟨h1, h2⟩ := h
  unfold Backtest.open_short
  dsimp only
  split
  · exact ⟨fun hc => Option.noConfusion hc, h2⟩
  · exact ⟨h1, h2⟩

theorem ledgerInv_execute_buy (cfg : Config) (s : BTState) (sig : Signal) (p : ℚ)
    (h : LedgerInv s) : LedgerInv (Backtest.execute_buy cfg s sig p) :=
  ledgerInv_open_long cfg sig p _ (ledgerInv_close_short cfg sig p s h)

theorem ledgerInv_execute_sell (cfg : Config) (s : BTState) (sig : Signal) (p : ℚ)
    (h : LedgerInv s) : LedgerInv (Backtest.execute_sell cfg s sig p) :=
  ledgerInv_open_short cfg sig p _ (ledgerInv_close_long cfg sig p s h)

theorem ledgerInv_apply_signal (cfg : Config) (p : ℚ) (s : BTState) (sig : Signal)
    (h : LedgerInv s) : LedgerInv (Backtest.apply_signal cfg p s sig) := by
  unfold Backtest.apply_signal
  split
  · exact ledgerInv_execute_buy cfg s sig p h
  · exact ledgerInv_execute_sell cfg s sig p h
  · exact h

theorem ledgerInv_foldl_signals (cfg : Config) (p : ℚ) (sigs : List Signal) (s : BTState)
    (h : LedgerInv s) : LedgerInv (sigs.foldl (Backtest.apply_signal cfg p) s) := by
  induction sigs generalizing s with
  | nil => exact h
  | cons sg sgs ih => exact ih _ (ledgerInv_apply_signal cfg p s sg h)

theorem ledgerInv_process_bar (cfg : Config) (sigs : List Signal) (s : BTState) (bar : Int × ℚ)
    (h : LedgerInv s) : LedgerInv (Backtest.process_bar cfg sigs s bar) := by
  unfold Backtest.process_bar
  exact ledgerInv_foldl_signals cfg bar.2 _ _ ⟨h.1, h.2⟩

theorem ledgerInv_foldl_bars (cfg : Config) (sigs : List Signal) (rows : List (Int × ℚ))
    (s : BTState) (h : LedgerInv s) :
    LedgerInv (rows.foldl (Backtest.process_bar cfg sigs) s) := by
  induction rows generalizing s with
  | nil => exact h
  | cons b bs ih => exact ih _ (ledgerInv_process_bar cfg sigs s b h)

theorem ledgerInv_force_close (cfg : Config) (data : DataFrame) (s : BTState)
    (h : LedgerInv s) : LedgerInv (Backtest.force_close cfg data s) := by
  unfold Backtest.force_close
  split
  · split
    · split
      · exact ledgerInv_execute_sell cfg s _ _ h
      · exact ledgerInv_execute_buy cfg s _ _ h
    · exact h
  · exact h

theorem ledgerInv_runWith (cfg : Config) (data : DataFrame) (sigs : List Signal) (now : Int) :
    LedgerInv (Backtest.runWith cfg data sigs now).1 := by
  unfold Backtest.runWith
  split
  · exact ledgerInv_initState cfg
  · exact ledgerInv_force_close cfg data _
      (ledgerInv_foldl_bars cfg _ data.rows _ (ledgerInv_initState cfg))

theorem ledgerInv_run (cfg : Config) (strategy : DataFrame → List Signal) (data : DataFrame)
    (now : Int) : LedgerInv (Backtest.run cfg strategy data now).1 := by
  unfold Backtest.run
  exact ledgerInv_runWith cfg _ _ now

/-! ## The replay touches the equity curve once per bar, in bar order -/

theorem equityCurve_close_short (cfg : Config) (sig : Signal) (p : ℚ) (s : BTState) :
    (Backtest.close_short cfg sig p s).equity_curve = s.equity_curve := by
  unfold Backtest.close_short
  dsimp only
  split
  · split
    · rfl
    · rfl
  · rfl

theorem equityCurve_open_long (cfg : Config) (sig : Signal) (p : ℚ) (s : BTState) :
    (Backtest.open_long cfg sig p s).equity_curve = s.equity_curve := by
  unfold Backtest.open_long
  dsimp only
  split
  · split
    · rfl
    · rfl
  · rfl

theorem equityCurve_close_long (cfg : Config) (sig : Signal) (p : ℚ) (s : BTState) :
    (Backtest.close_long cfg sig p s).equity_curve = s.equity_curve := by
  unfold Backtest.close_long
  dsimp only
  split
  · split
    · rfl
    · rfl
  · rfl

theorem equityCurve_open_short (cfg : Config) (sig : Signal) (p : ℚ) (s : BTState) :
    (Backtest.open_short cfg sig p s).equity_curve = s.equity_curve := by
  unfold Backtest.open_short
  dsimp only
  split
  · rfl
  · rfl

theorem equityCurve_apply_signal (cfg : Config) (p : ℚ) (s : BTState) (sig : Signal) :
    (Backtest.apply_signal cfg p s sig).equity_curve = s.equity_curve := by
  unfold Backtest.apply_signal Backtest.execute_buy Backtest.execute_sell
  split
  · rw [equityCurve_open_long, equityCurve_close_short]
  · rw [equityCurve_open_short, equityCurve_close_long]
  · rfl

theorem equityCurve_foldl_signals (cfg : Config) (p : ℚ) (sigs : List Signal) (s : BTState) :
    (sigs.foldl (Backtest.apply_signal cfg p) s).equity_curve = s.equity_curve := by
  induction sigs generalizing s with
  | nil => rfl
  | cons sg sgs ih => rw [List.foldl_cons, ih, equityCurve_apply_signal]

theorem equityCurve_process_bar (cfg : Config) (sigs : List Signal) (s : BTState)
    (bar : Int × ℚ) :
    (Backtest.process_bar cfg sigs s bar).equity_curve
      = s.equity_curve ++ [(bar.1, s.capital + s.position_value)] := by
  unfold Backtest.process_bar
  rw [equityCurve_foldl_signals]

theorem equityCurve_fst_foldl_bars (cfg : Config) (sigs : List Signal) (rows : List (Int × ℚ))
    (s : BTState) :
    ((rows.foldl (Backtest.process_bar cfg sigs) s).equity_curve).map Prod.fst
      = s.equity_curve.map Prod.fst ++ rows.map Prod.fst := by
  induction rows generalizing s with
  | nil => simp
  | cons b bs ih =>
      rw [List.foldl_cons, ih, equityCurve_process_bar]
      simp

theorem equityCurve_force_close (cfg : Config) (data : DataFrame) (s : BTState) :
    (Backtest.force_close cfg data s).equity_curve = s.equity_curve := by
  unfold Backtest.force_close Backtest.execute_buy Backtest.execute_sell
  split
  · split
    · split
      · rw [equityCurve_open_short, equityCurve_close_long]
      · rw [equityCurve_open_long, equityCurve_close_short]
    · rfl
  · rfl

/-! ## Relating the truthiness-based trade filters to the spec's sums -/

theorem plWinning_some (p : ℚ) : plWinning (some p) = decide (0 < p) := by
  by_cases hp : 0 < p
  · simp [plWinning, hp, ne_of_gt hp]
  · simp [plWinning, hp]

theorem plLosing_some (p : ℚ) : plLosing (some p) = decide (p < 0) := by
  rcases lt_trichotomy p 0 with h | h | h
  · simp [plLosing, h, ne_of_lt h, le_of_lt h]
  · subst h
    simp [plLosing]
  · simp [plLosing, ne_of_gt h, not_le.mpr h, not_lt.mpr (le_of_lt h)]

theorem winning_sum_eq (l : List TradeRecord) :
    ((l.filter (fun t => plWinning t.profit_loss)).map (fun t => t.profit_loss.getD 0)).sum
      = ((l.filterMap (fun t => t.profit_loss)).filter (fun p => decide (0 < p))).sum := by
  induction l with
  | nil => rfl
  | cons t l ih =>
      rw [List.filterMap_cons, List.filter_cons]
      cases hpl : t.profit_loss with
      | none => simpa [hpl] using ih
      | some p =>
          rw [plWinning_some]
          by_cases hp : 0 < p
          · simp [List.filter_cons, hp, hpl, ih]
          · simp [List.filter_cons, hp, ih]

theorem losing_sum_eq (l : List TradeRecord) :
    ((l.filter (fun t => plLosing t.profit_loss)).map (fun t => t.profit_loss.getD 0)).sum
      = ((l.filterMap (fun t => t.profit_loss)).filter (fun p => decide (p < 0))).sum := by
  induction l with
  | nil => rfl
  | cons t l ih =>
      rw [List.filterMap_cons, List.filter_cons]
      cases hpl : t.profit_loss with
      | none => simpa [hpl] using ih
      | some p =>
          rw [plLosing_some]
          by_cases hp : p < 0
          · simp [List.filter_cons, hp, hpl, ih]
          · simp [List.filter_cons, hp, ih]

theorem sum_filter_nonpos_eq_neg (l : List ℚ) :
    (l.filter (fun p => decide (p ≤ 0))).sum = (l.filter (fun p => decide (p < 0))).sum := by
  induction l with
  | nil => rfl
  | cons x l ih =>
      rw [List.filter_cons, List.filter_cons]
      rcases lt_trichotomy x 0 with h | h | h
      · simp [le_of_lt h, h, ih]
      · subst h
        simp [ih]
      · simp [not_le.mpr h, not_lt.mpr (le_of_lt h), ih]

/-! ## Per-claim theorems -/

/-- C1: for the one-bar run `cfgC1`/`dataC1` with a single BUY, the
force-close step does close exactly one additional trade at the last bar's
close price (100) and timestamp (0) via the synthesized
`close_position` signal — but, contrary to the claim, `run()` returns with
a non-zero (short) position and a fresh open trade, because
`_execute_sell` unconditionally re-opens a short after closing the long. -/
theorem c1_force_close_reopens :
    (Backtest.run cfgC1 (fun _ => [sigC1]) dataC1 0).1.trades.map
        (fun t => (t.direction, t.status, t.exit_time, t.exit_price, t.profit_loss)) =
      [("long", "closed", some 0, some 100, some (-1))] ∧
    (Backtest.run cfgC1 (fun _ => [sigC1]) dataC1 0).1.trades.map
        (fun t => t.exit_signal.map (fun sg => sg.metadata)) =
      [some [("type", "close_position")]] ∧
    (Backtest.run cfgC1 (fun _ => [sigC1]) dataC1 0).1.position = -(4999/500) ∧
    (Backtest.run cfgC1 (fun _ => [sigC1]) dataC1 0).1.position ≠ 0 ∧
    (Backtest.run cfgC1 (fun _ => [sigC1]) dataC1 0).1.open_trade.map
        (fun t => (t.direction, t.status, t.entry_price, t.entry_time)) =
      some ("short", "open", 100, 0) :=
  ⟨by decide, by decide, by decide, by decide, by decide⟩

/-- C2 counterexample: with `position_size = 2` the full cost+fee of the
short entry (20020) exceeds the capital (10000), yet processing a SELL
while flat still opens the short and changes the ledger — the claimed
insufficient-capital guard does not exist on the SELL side. -/
theorem c2_counterexample :
    cfgC2.initial_capital * cfgC2.position_size * (1 + cfgC2.fee_rate)
        > cfgC2.initial_capital ∧
    (Backtest.execute_sell cfgC2 (Backtest.initState cfgC2) sigC2 100).position = -200 ∧
    (Backtest.execute_sell cfgC2 (Backtest.initState cfgC2) sigC2 100).capital = 29980 ∧
    (Backtest.execute_sell cfgC2 (Backtest.initState cfgC2) sigC2 100).open_trade ≠ none :=
  ⟨by decide, by decide, by decide, by decide⟩

/-- C3 counterexample: on the spec's concrete scenario the closed long's
profit_loss is 98.9 (the entry fee is not subtracted), not 97.9, and —
because the SELL re-opens a short that the end-of-run force-close closes
and replaces by a long — the metrics show 2 trades, 50% win rate and a
finite profit factor instead of 1 trade, 100% and +infinity. -/
theorem c3_counterexample :
    (runC3.1.trades.map (fun t => t.profit_loss)) =
      [some (989/10), some (-(100979/100000))] ∧
    (989/10 : ℚ) ≠ 979/10 ∧
    runC3.2.metrics.total_trades = 2 ∧
    runC3.2.metrics.total_trades ≠ 1 ∧
    runC3.2.metrics.win_rate = 50 ∧
    runC3.2.metrics.win_rate ≠ 100 ∧
    runC3.2.metrics.profit_factor ≠ MetricVal.inf :=
  ⟨by decide, by decide, by decide, by decide, by decide, by decide, by decide⟩

/-- C3 amended: what the scenario actually produces.  Entry quantity 10 and
capital 8999 after the entry bar; closing the long on the SELL bar yields
capital 10097.9 and a trade with profit_loss 98.9 = (110−100)×10 − 1.1
(exit fee only) and profit_loss_pct 10; the SELL then opens a short, the
force-close closes it (profit_loss −1.00979) and re-opens a long, so the
metrics are total_trades = 2, winning_trades = 1, win_rate = 50 and
profit_factor = 98.9 / 1.00979 = 9890000/100979. -/
theorem c3_amended :
    (Backtest.process_bar cfgC3 [sigC3buy, sigC3sell]
        (Backtest.initState cfgC3) (0, 100)).capital = 8999 ∧
    (Backtest.process_bar cfgC3 [sigC3buy, sigC3sell]
        (Backtest.initState cfgC3) (0, 100)).position = 10 ∧
    (Backtest.close_long cfgC3 sigC3sell 110
        (Backtest.process_bar cfgC3 [sigC3buy, sigC3sell]
          (Backtest.initState cfgC3) (0, 100))).capital = 100979/10 ∧
    (runC3.1.trades.map
        (fun t => (t.direction, t.profit_loss, t.profit_loss_pct, t.status))) =
      [("long", some (989/10), some 10, "closed"),
       ("short", some (-(100979/100000)), some 0, "closed")] ∧
    runC3.2.metrics.total_trades = 2 ∧
    runC3.2.metrics.winning_trades = 1 ∧
    runC3.2.metrics.win_rate = 50 ∧
    runC3.2.metrics.profit_factor = MetricVal.q (9890000/100979) ∧
    runC3.2.equity_curve = [(0, 10000), (1, 9999)] :=
  ⟨by decide, by decide, by decide, by decide, by decide, by decide, by decide, by decide,
   by decide⟩

/-- C4 counterexample: immediately after a short of quantity 10 opens at
price 100, `position_value` is +1000 while `position × price` is −1000, so
`position_value == position × mark price` fails at that point. -/
theorem c4_counterexample :
    (Backtest.execute_sell cfgC4 (Backtest.initState cfgC4) sigC4 100).position_value
        = 1000 ∧
    (Backtest.execute_sell cfgC4 (Backtest.initState cfgC4) sigC4 100).position * 100
        = -1000 ∧
    (Backtest.execute_sell cfgC4 (Backtest.initState cfgC4) sigC4 100).position_value
        ≠ (Backtest.execute_sell cfgC4 (Backtest.initState cfgC4) sigC4 100).position * 100 :=
  ⟨by decide, by decide, by decide⟩

/-- C5 counterexample: in the run `runC5` (all-in short covered at exactly
all remaining capital) the final state has `position = 0` while
`open_trade` holds a zero-quantity long with status `open`, refuting the
two-sided `position == 0 ⇔ open_trade is None` invariant on a reachable
state. -/
theorem c5_counterexample :
    runC5.1.position = 0 ∧
    runC5.1.open_trade ≠ none ∧
    (runC5.1.open_trade.map (fun t => (t.direction, t.quantity, t.status))) =
      some ("long", 0, "open") :=
  ⟨by decide, by decide, by decide⟩

/-- C6 counterexample: a two-bar series with a no-signal strategy produces
an equity curve with exactly 1 sample (the early-return path never enters
the bar loop), not the claimed 2. -/
theorem c6_counterexample :
    (Backtest.run cfgC6 (fun _ => []) dataC6 99).2.equity_curve.length = 1 ∧
    (Backtest.run cfgC6 (fun _ => []) dataC6 99).2.equity_curve.length ≠ 2 ∧
    (Backtest.run cfgC6 (fun _ => []) dataC6 99).2.equity_curve = [(5, 10000)] :=
  ⟨by decide, by decide, by decide⟩

/-- C7 counterexample: an empty price series yields an equity curve with
one sample (the initial capital at the wall-clock timestamp), not the
claimed zero samples. -/
theorem c7_counterexample :
    (Backtest.run cfgC7 (fun _ => [sigC7]) dataC7 42).2.equity_curve.length = 1 ∧
    (Backtest.run cfgC7 (fun _ => [sigC7]) dataC7 42).2.equity_curve.length ≠ 0 ∧
    (Backtest.run cfgC7 (fun _ => [sigC7]) dataC7 42).2.equity_curve = [(42, 10000)] :=
  ⟨by decide, by decide, by decide⟩

/-- C8 counterexample: a DatetimeIndex series supplied in order [1, 0] is
re-sorted by the constructor and replayed in order [0, 1], so the
orchestrator does not process bars in caller-supplied order. -/
theorem c8_counterexample :
    dataC8.rows.map Prod.fst = [1, 0] ∧
    (Backtest.initData dataC8).rows.map Prod.fst = [0, 1] ∧
    (Backtest.run cfgC8 (fun _ => [sigC8]) dataC8 0).1.equity_curve.map Prod.fst
        = [0, 1] ∧
    (Backtest.run cfgC8 (fun _ => [sigC8]) dataC8 0).1.equity_curve.map Prod.fst
        ≠ dataC8.rows.map Prod.fst :=
  ⟨by decide, by decide, by decide, by decide⟩

/-- C2 amended: opening a SHORT while flat is subject to NO capital guard
at all: for every configuration, every flat state and every price, the SELL
entry proceeds unconditionally — position becomes the negated computed
quantity, capital increases by proceeds − fee, and an open short trade is
created regardless of any cost/capital comparison (only the long side of
`_execute_buy` carries the insufficient-capital guard); no exception is
raised either way. -/
theorem c2_amended_short_entry_unguarded (cfg : Config) (s : BTState) (sig : Signal)
    (p : ℚ) (h : s.position = 0) :
    (Backtest.execute_sell cfg s sig p).position
        = -(s.capital * cfg.position_size / (p * (1 - cfg.slippage))) ∧
    (Backtest.execute_sell cfg s sig p).capital
        = s.capital + (s.capital * cfg.position_size / (p * (1 - cfg.slippage))
              * (p * (1 - cfg.slippage))
            - s.capital * cfg.position_size / (p * (1 - cfg.slippage))
              * (p * (1 - cfg.slippage)) * cfg.fee_rate) ∧
    ((Backtest.execute_sell cfg s sig p).open_trade.map
        (fun t => (t.direction, t.status, t.quantity)))
      = some ("short", "open", s.capital * cfg.position_size / (p * (1 - cfg.slippage))) := by
  have hcl : Backtest.close_long cfg sig p s = s := by
    unfold Backtest.close_long
    rw [if_neg (by rw [h]; exact lt_irrefl 0)]
  unfold Backtest.execute_sell
  rw [hcl]
  unfold Backtest.open_short
  rw [if_pos h]
  exact ⟨rfl, rfl, rfl⟩

/-- Witness for C2: the unguarded short entry evaluated at `cfgC2`
(quantity 200, capital 10000 → 29980). -/
theorem c2_witness :
    (Backtest.execute_sell cfgC2 (Backtest.initState cfgC2) sigC2 100).position
        = -((Backtest.initState cfgC2).capital * cfgC2.position_size
            / (100 * (1 - cfgC2.slippage))) ∧
    (Backtest.execute_sell cfgC2 (Backtest.initState cfgC2) sigC2 100).capital
        = (Backtest.initState cfgC2).capital
            + ((Backtest.initState cfgC2).capital * cfgC2.position_size
                  / (100 * (1 - cfgC2.slippage)) * (100 * (1 - cfgC2.slippage))
              - (Backtest.initState cfgC2).capital * cfgC2.position_size
                  / (100 * (1 - cfgC2.slippage)) * (100 * (1 - cfgC2.slippage))
                  * cfgC2.fee_rate) ∧
    ((Backtest.execute_sell cfgC2 (Backtest.initState cfgC2) sigC2 100).open_trade.map
        (fun t => (t.direction, t.status, t.quantity)))
      = some ("short", "open",
          (Backtest.initState cfgC2).capital * cfgC2.position_size
            / (100 * (1 - cfgC2.slippage))) :=
  c2_amended_short_entry_unguarded cfgC2 (Backtest.initState cfgC2) sigC2 100 (by decide)

/-- C4 amended: `position_value` is maintained as the UNSIGNED notional.
Immediately after a short opens, `position_value = quantity × price`
equals `−position × price` (the negation of what the claim states), while
the signed relation `position_value = position × close` does hold at each
bar's mark-to-market update, and the equity sample recorded at the top of
a bar equals `capital + position_value` of the incoming state. -/
theorem c4_amended_position_value (cfg : Config) (s s2 : BTState) (sig : Signal)
    (p : ℚ) (sigs : List Signal) (bar : Int × ℚ)
    (h : s.position = 0)
    (h2 : sigs.filter (fun sg => sg.timestamp == bar.1) = []) :
    (Backtest.execute_sell cfg s sig p).position_value
        = -((Backtest.execute_sell cfg s sig p).position) * p ∧
    (Backtest.execute_sell cfg s sig p).position_value
        = s.capital * cfg.position_size / (p * (1 - cfg.slippage)) * p ∧
    (Backtest.process_bar cfg sigs s2 bar).position_value = s2.position * bar.2 ∧
    (Backtest.process_bar cfg sigs s2 bar).equity_curve
        = s2.equity_curve ++ [(bar.1, s2.capital + s2.position_value)] := by
  have hcl : Backtest.close_long cfg sig p s = s := by
    unfold Backtest.close_long
    rw [if_neg (by rw [h]; exact lt_irrefl 0)]
  have hos :
      (Backtest.execute_sell cfg s sig p).position_value
          = -((Backtest.execute_sell cfg s sig p).position) * p ∧
      (Backtest.execute_sell cfg s sig p).position_value
          = s.capital * cfg.position_size / (p * (1 - cfg.slippage)) * p := by
    unfold Backtest.execute_sell
    rw [hcl]
    unfold Backtest.open_short
    rw [if_pos h]
    refine ⟨?_, rfl⟩
    rw [neg_neg]
  refine ⟨hos.1, hos.2, ?_, ?_⟩
  · unfold Backtest.process_bar
    rw [h2]
    rfl
  · unfold Backtest.process_bar
    rw [h2]
    rfl

/-- Witness for C4 at `cfgC4`: a short of quantity 10 at price 100, then a
bar carrying no signals applied to the resulting state. -/
theorem c4_witness :
    (Backtest.execute_sell cfgC4 (Backtest.initState cfgC4) sigC4 100).position_value
        = -((Backtest.execute_sell cfgC4 (Backtest.initState cfgC4) sigC4 100).position)
            * 100 ∧
    (Backtest.execute_sell cfgC4 (Backtest.initState cfgC4) sigC4 100).position_value
        = (Backtest.initState cfgC4).capital * cfgC4.position_size
            / (100 * (1 - cfgC4.slippage)) * 100 ∧
    (Backtest.process_bar cfgC4 [sigC4]
        (Backtest.execute_sell cfgC4 (Backtest.initState cfgC4) sigC4 100) (5, 100)).position_value
        = (Backtest.execute_sell cfgC4 (Backtest.initState cfgC4) sigC4 100).position * (5, (100:ℚ)).2 ∧
    (Backtest.process_bar cfgC4 [sigC4]
        (Backtest.execute_sell cfgC4 (Backtest.initState cfgC4) sigC4 100) (5, 100)).equity_curve
        = (Backtest.execute_sell cfgC4 (Backtest.initState cfgC4) sigC4 100).equity_curve
          ++ [((5, (100:ℚ)).1,
               (Backtest.execute_sell cfgC4 (Backtest.initState cfgC4) sigC4 100).capital
                 + (Backtest.execute_sell cfgC4 (Backtest.initState cfgC4) sigC4 100).position_value)] :=
  c4_amended_position_value cfgC4 (Backtest.initState cfgC4)
    (Backtest.execute_sell cfgC4 (Backtest.initState cfgC4) sigC4 100) sigC4 100 [sigC4]
    (5, 100) (by decide) (by decide)

/-- C5 amended: the invariant provable of the code is one-sided: in the
initial state and under every BUY/SELL step (hence in every state
reachable in a run, and in particular in the state `run()` returns),
`open_trade = None` implies `position == 0`, and every trade in the
history is closed — so at most one trade (the `open_trade` field) is ever
open.  The converse direction `position == 0 → open_trade is None` is the
part refuted by `c5_counterexample` (a zero-quantity entry opens a trade
while the position stays 0). -/
theorem c5_amended_invariant (cfg : Config) (sig : Signal) (p : ℚ) (s : BTState)
    (strategy : DataFrame → List Signal) (data : DataFrame) (now : Int)
    (h : LedgerInv s) :
    LedgerInv (Backtest.initState cfg) ∧
    LedgerInv (Backtest.execute_buy cfg s sig p) ∧
    LedgerInv (Backtest.execute_sell cfg s sig p) ∧
    LedgerInv (Backtest.run cfg strategy data now).1 :=
  ⟨ledgerInv_initState cfg, ledgerInv_execute_buy cfg s sig p h,
   ledgerInv_execute_sell cfg s sig p h, ledgerInv_run cfg strategy data now⟩

/-- Witness for C5 at `cfgC5` and the concrete run `runC5`. -/
theorem c5_witness :
    LedgerInv (Backtest.initState cfgC5) ∧
    LedgerInv (Backtest.execute_buy cfgC5 (Backtest.initState cfgC5) sigC5buy 200) ∧
    LedgerInv (Backtest.execute_sell cfgC5 (Backtest.initState cfgC5) sigC5buy 200) ∧
    LedgerInv (Backtest.run cfgC5 (fun _ => [sigC5sell, sigC5buy]) dataC5 0).1 :=
  c5_amended_invariant cfgC5 sigC5buy 200 (Backtest.initState cfgC5)
    (fun _ => [sigC5sell, sigC5buy]) dataC5 0 (by decide)

/-- C6 amended: a two-bar series with a strategy that emits no signals
takes the early-return path of `run()` before the bar loop, so the equity
curve has exactly ONE sample — the initial capital at the first bar's
timestamp — (not 2), the trade list is empty and every metric is at its
zero default. -/
theorem c6_amended_no_signal_run (cfg : Config) (b : Bool) (sym : Option String)
    (t1 t2 : Int) (c1 c2 : ℚ) (now : Int) (h : t1 ≤ t2) :
    (Backtest.run cfg (fun _ => [])
        { isDatetimeIndex := b, rows := [(t1, c1), (t2, c2)], symbolCol := sym } now).2.equity_curve
      = [(t1, cfg.initial_capital)] ∧
    (Backtest.run cfg (fun _ => [])
        { isDatetimeIndex := b, rows := [(t1, c1), (t2, c2)], symbolCol := sym } now).2.metrics
      = zeroMetrics ∧
    (Backtest.run cfg (fun _ => [])
        { isDatetimeIndex := b, rows := [(t1, c1), (t2, c2)], symbolCol := sym } now).2.trades
      = [] := by
  cases b <;>
    simp [Backtest.run, Backtest.runWith, Backtest.initData, DataFrame.copy,
      DataFrame.sortIndex, Backtest.create_result, Backtest.initState,
      Backtest.calculate_metrics, List.insertionSort, List.orderedInsert, h]

/-- Witness for C6 at `cfgC6` and a sorted two-bar series. -/
theorem c6_witness :
    (Backtest.run cfgC6 (fun _ => [])
        { isDatetimeIndex := true, rows := [(5, 100), (7, 110)], symbolCol := none } 99).2.equity_curve
      = [(5, cfgC6.initial_capital)] ∧
    (Backtest.run cfgC6 (fun _ => [])
        { isDatetimeIndex := true, rows := [(5, 100), (7, 110)], symbolCol := none } 99).2.metrics
      = zeroMetrics ∧
    (Backtest.run cfgC6 (fun _ => [])
        { isDatetimeIndex := true, rows := [(5, 100), (7, 110)], symbolCol := none } 99).2.trades
      = [] :=
  c6_amended_no_signal_run cfgC6 true none 5 7 100 110 99 (by decide)

/-- C7 amended: an empty price series yields — without raising — an equity
curve with exactly ONE sample (not zero): the initial capital indexed at
the wall-clock time `now`, and the result's start/end markers both equal
`now`, whatever the strategy emits. -/
theorem c7_amended_empty_series (cfg : Config) (strategy : DataFrame → List Signal)
    (b : Bool) (sym : Option String) (now : Int) :
    (Backtest.run cfg strategy
        { isDatetimeIndex := b, rows := [], symbolCol := sym } now).2.equity_curve
      = [(now, cfg.initial_capital)] ∧
    (Backtest.run cfg strategy
        { isDatetimeIndex := b, rows := [], symbolCol := sym } now).2.start_date = now ∧
    (Backtest.run cfg strategy
        { isDatetimeIndex := b, rows := [], symbolCol := sym } now).2.end_date = now := by
  have hd : Backtest.initData { isDatetimeIndex := b, rows := [], symbolCol := sym }
      = { isDatetimeIndex := b, rows := [], symbolCol := sym } := by
    cases b <;>
      simp [Backtest.initData, DataFrame.copy, DataFrame.sortIndex, List.insertionSort]
  rcases hsig : strategy { isDatetimeIndex := b, rows := [], symbolCol := sym }
      with _ | ⟨sg, sgs⟩ <;>
    simp [Backtest.run, Backtest.runWith, hd, hsig, Backtest.force_close,
      Backtest.create_result, Backtest.initState]

/-- C8 amended: the orchestrator does not deduplicate (the stored rows are
a permutation of the supplied rows), but it DOES re-sort whenever the
index is a DatetimeIndex: the stored rows are then sorted ascending by
timestamp, and the replay processes bars — and appends equity samples —
in the order of the stored (sorted) rows, not the caller-supplied order;
only for a non-datetime index is the supplied order preserved. -/
theorem c8_amended_sorted_replay (cfg : Config) (strategy : DataFrame → List Signal)
    (data : DataFrame) (now : Int)
    (h : strategy (Backtest.initData data) ≠ []) :
    List.Perm (Backtest.initData data).rows data.rows ∧
    (data.isDatetimeIndex = false → (Backtest.initData data).rows = data.rows) ∧
    (data.isDatetimeIndex = true →
      List.Sorted (fun a b => a.1 ≤ b.1) (Backtest.initData data).rows) ∧
    (Backtest.run cfg strategy data now).1.equity_curve.map Prod.fst
      = (Backtest.initData data).rows.map Prod.fst := by
  refine ⟨?_, ?_, ?_, ?_⟩
  · unfold Backtest.initData DataFrame.copy
    split
    · exact List.perm_insertionSort _ _
    · exact List.Perm.refl _
  · intro hfalse
    simp [Backtest.initData, DataFrame.copy, hfalse]
  · intro htrue
    simp only [Backtest.initData, DataFrame.copy, htrue, if_pos]
    exact List.sorted_insertionSort _ _
  · simp only [Backtest.run, Backtest.runWith]
    rw [if_neg h]
    rw [equityCurve_force_close, equityCurve_fst_foldl_bars]
    simp [Backtest.initState]

/-- Witness for C8 at the out-of-order series `dataC8`. -/
theorem c8_witness :
    List.Perm (Backtest.initData dataC8).rows dataC8.rows ∧
    (dataC8.isDatetimeIndex = false → (Backtest.initData dataC8).rows = dataC8.rows) ∧
    (dataC8.isDatetimeIndex = true →
      List.Sorted (fun a b => a.1 ≤ b.1) (Backtest.initData dataC8).rows) ∧
    (Backtest.run cfgC8 (fun _ => [sigC8]) dataC8 0).1.equity_curve.map Prod.fst
      = (Backtest.initData dataC8).rows.map Prod.fst :=
  c8_amended_sorted_replay cfgC8 (fun _ => [sigC8]) dataC8 0 (by decide)

/-- The `profit_factor` entry computed by `calculate_metrics` on a list of
closed trades coincides with the specification's formula. -/
theorem profit_factor_of_calculate_metrics (trades : List TradeRecord)
    (curve : List (Int × ℚ)) (cap : ℚ) (sd ed : Int)
    (h0 : trades ≠ []) (hc : ∀ t ∈ trades, t.status = "closed") :
    (Backtest.calculate_metrics trades curve cap sd ed).profit_factor
      = profitFactorSpec trades := by
  have hct : trades.filter (fun t => t.status == "closed") = trades := by
    rw [List.filter_eq_self]
    intro t ht
    simpa using hc t ht
  unfold Backtest.calculate_metrics
  rw [if_neg h0]
  dsimp only
  rw [hct]
  have hgp : (if trades.filter (fun t => plWinning t.profit_loss) ≠ [] then
      ((trades.filter (fun t => plWinning t.profit_loss)).map
        (fun t => t.profit_loss.getD 0)).sum
      else 0) = grossProfitSpec trades := by
    unfold grossProfitSpec
    rw [← winning_sum_eq]
    split
    · rfl
    · rename_i hw
      simp [not_not.mp hw]
  have hgl : (if trades.filter (fun t => plLosing t.profit_loss) ≠ [] then
      |((trades.filter (fun t => plLosing t.profit_loss)).map
        (fun t => t.profit_loss.getD 0)).sum|
      else 0) = grossLossSpec trades := by
    unfold grossLossSpec
    rw [sum_filter_nonpos_eq_neg, ← losing_sum_eq]
    split
    · rfl
    · rename_i hw
      simp [not_not.mp hw]
  rw [hgp, hgl]
  by_cases hz : grossLossSpec trades = 0
  · simp [profitFactorSpec, hz]
  · simp [profitFactorSpec, hz]

/-- C9: on every non-empty list of closed trades, `profit_factor` equals
the spec's `gross_profit / gross_loss` with the documented special cases
(0 when both sums are zero, +infinity when only the loss is zero); it is
never NaN, and a list of exclusively winning trades yields +infinity. -/
theorem c9_profit_factor (trades : List TradeRecord) (curve : List (Int × ℚ))
    (cap : ℚ) (sd ed : Int)
    (h0 : trades ≠ [])
    (h1 : ∀ t ∈ trades, t.status = "closed") :
    (Backtest.calculate_metrics trades curve cap sd ed).profit_factor
        = profitFactorSpec trades ∧
    (Backtest.calculate_metrics trades curve cap sd ed).profit_factor
        ≠ MetricVal.nan ∧
    ((∀ t ∈ trades, ∃ x, t.profit_loss = some x ∧ 0 < x) →
      (Backtest.calculate_metrics trades curve cap sd ed).profit_factor
        = MetricVal.inf) := by
  have hmain := profit_factor_of_calculate_metrics trades curve cap sd ed h0 h1
  refine ⟨hmain, ?_, ?_⟩
  · rw [hmain]
    unfold profitFactorSpec
    split
    · split
      · exact fun hx => MetricVal.noConfusion hx
      · exact fun hx => MetricVal.noConfusion hx
    · exact fun hx => MetricVal.noConfusion hx
  · intro hw
    rw [hmain]
    have hfm : ∀ x ∈ trades.filterMap (fun t => t.profit_loss), 0 < x := by
      intro x hx
      rcases List.mem_filterMap.mp hx with ⟨t, ht, hxt⟩
      rcases hw t ht with ⟨y, hy, hy0⟩
      rw [hy] at hxt
      injection hxt with hyx
      subst hyx
      exact hy0
    have hgl0 : grossLossSpec trades = 0 := by
      unfold grossLossSpec
      have hfe : (trades.filterMap (fun t => t.profit_loss)).filter
          (fun p => decide (p ≤ 0)) = [] := by
        rw [List.filter_eq_nil_iff]
        intro p hp
        simp [not_le.mpr (hfm p hp)]
      rw [hfe]
      simp
    have hne : trades.filterMap (fun t => t.profit_loss) ≠ [] := by
      rcases trades with _ | ⟨t, ts⟩
      · exact absurd rfl h0
      · rcases hw t (List.mem_cons_self t ts) with ⟨y, hy, _⟩
        intro hnil
        have hmem : y ∈ List.filterMap (fun t => t.profit_loss) (t :: ts) :=
          List.mem_filterMap.mpr ⟨t, List.mem_cons_self t ts, hy⟩
        rw [hnil] at hmem
        exact absurd hmem (List.not_mem_nil y)
    have hgppos : 0 < grossProfitSpec trades := by
      unfold grossProfitSpec
      have hfe : (trades.filterMap (fun t => t.profit_loss)).filter
          (fun p => decide (0 < p)) = trades.filterMap (fun t => t.profit_loss) := by
        rw [List.filter_eq_self]
        intro p hp
        simpa using hfm p hp
      rw [hfe]
      exact List.sum_pos _ hfm hne
    unfold profitFactorSpec
    rw [if_pos hgl0, if_neg (ne_of_gt hgppos)]

/-- Witness for C9: a single closed winning trade gives `profit_factor =
+infinity`. -/
theorem c9_witness :
    (Backtest.calculate_metrics [tradeC9] [(0, 10000), (1, 10097)] 10000 0 1).profit_factor
      = MetricVal.inf :=
  (c9_profit_factor [tradeC9] [(0, 10000), (1, 10097)] 10000 0 1 (by decide)
      (by decide)).2.2
    (fun t ht => by
      rw [List.mem_singleton] at ht
      subst ht
      exact ⟨989/10, rfl, by decide⟩)

/-- C10: constructing a `Backtest` and running it never mutates the
caller-supplied price frame: the constructor allocates a copy (appending a
new frame to the heap) and `run()` acts as the identity on the heap, so
every pre-existing heap slot — in particular the caller's frame — is
unchanged after the run. -/
theorem c10_caller_frame_unchanged (heap : List DataFrame) (r : Nat) (cfg : Config)
    (strategy : DataFrame → List Signal) (now : Int) (i : Nat)
    (h : i < heap.length) :
    ((runOnHeap (constructOnHeap heap r).1 (constructOnHeap heap r).2 cfg
        strategy now).1).getD i default
      = heap.getD i default := by
  unfold runOnHeap constructOnHeap
  exact List.getD_append heap _ default i h

/-- Witness for C10 on the one-frame heap `heapC10`. -/
theorem c10_witness :
    ((runOnHeap (constructOnHeap heapC10 0).1 (constructOnHeap heapC10 0).2 cfgC8
        (fun _ => [sigC8]) 0).1).getD 0 default
      = heapC10.getD 0 default :=
  c10_caller_frame_unchanged heapC10 0 cfgC8 (fun _ => [sigC8]) 0 0 (by decide)
